import Mathlib

/-!
Shallow embedding of the Ethoscan Genesis Score Verifier
(src/ethoscan-verifier.js).

The chain access of the JS code (ethers JsonRpcProvider `getCode`, and the
`getOwners()` call on a contract object) is modelled as an explicit
`Provider` record of fact functions; a thrown JS exception is an
`Except.error` carrying the error message string.  The remaining checkers
(`checkLiquidity`, `checkTeam`, `checkFairLaunch`) contain no operation
that can throw, so they are pure `Report → Report` functions, exactly as in
the source.  The in-place mutation of the `result` object is modelled by
explicit state passing; the top-level try/catch of `verify` is modelled by
`verifyBody` returning `Except`, with the error value carrying the report
state at the moment of the throw (as the JS catch block sees the mutated
`result`).
-/

namespace Ethoscan

/-- One pillar entry of the report: a verified flag, a point count and a
human-readable details text (lines 18-21 of the source). -/
structure PillarResult where
  verified : Bool
  points : Nat
  details : String
deriving Repr, DecidableEq

/-- The four pillars, in the insertion order of the JS object literal
(lines 17-22): team, fair launch, liquidity, treasury. -/
structure Pillars where
  teamTransparency : PillarResult
  fairLaunchPledge : PillarResult
  liquidityCommitment : PillarResult
  treasuryTransparency : PillarResult
deriving Repr, DecidableEq

/-- The verification report built by `verify` (lines 12-25). -/
structure Report where
  address : String
  score : Nat
  maxScore : Nat
  tier : String
  pillars : Pillars
  risks : List String
  warnings : List String
deriving Repr, DecidableEq

/-- The chain fact provider.  `getCode` yields the bytecode string at an
address (the string "0x" when the account holds no code); `getOwners` is
the read-only `getOwners()` contract call.  An `Except.error` is a thrown
exception, carrying its `message`. -/
structure Provider where
  getCode : String → Except String String
  getOwners : String → Except String (List String)

/-- The initial pillar entry `{ verified: false, points: 0, details: "" }`. -/
def emptyPillar : PillarResult :=
  { verified := false, points := 0, details := "" }

/-- The fresh `result` object built at the top of `verify` (lines 12-25). -/
def initialResult (walletAddress : String) : Report :=
  { address := walletAddress
    score := 0
    maxScore := 500
    tier := "Unverified"
    pillars :=
      { teamTransparency := emptyPillar
        fairLaunchPledge := emptyPillar
        liquidityCommitment := emptyPillar
        treasuryTransparency := emptyPillar }
    risks := []
    warnings := [] }

/-- `checkTreasury` (lines 65-108).  The `getCode` fetch is outside any
try/catch inside this function, so its failure escapes (carrying the
current report state); the `getOwners` call sits inside the inner
try/catch, so its failure is handled locally. -/
def checkTreasury (p : Provider) (result : Report) (address : String) :
    Except (Report × String) Report :=
  match p.getCode address with
  | .error msg => .error (result, msg)
  | .ok code =>
    if code ≠ "0x" then
      match p.getOwners address with
      | .ok owners =>
        let n := owners.length
        if n ≥ 3 then
          .ok { result with
            pillars.treasuryTransparency :=
              { verified := true
                points := 150
                details := s!"Gnosis Safe with {n} signers" } }
        else
          .ok { result with
            pillars.treasuryTransparency :=
              { verified := false
                points := 0
                details := s!"Gnosis Safe but only {n} signers (<3)" }
            warnings := result.warnings ++ [s!"Low-signer Gnosis Safe ({n}/3)"] }
      | .error _ =>
        .ok { result with
          pillars.treasuryTransparency :=
            { verified := false
              points := 0
              details := "Not a Gnosis Safe" }
          risks := result.risks ++ ["Non-Gnosis treasury — high withdrawal risk"] }
    else
      .ok { result with
        pillars.treasuryTransparency :=
          { verified := false
            points := 0
            details := "EOA wallet — not multi-sig" }
        risks := result.risks ++ ["Project treasury is single-key wallet — critical risk"] }

/-- The lock facts record consumed by the liquidity check (lines 113-117). -/
structure LpLock where
  locked : Bool
  days : Nat
  renounceable : Bool
deriving Repr, DecidableEq

/-- The hardcoded mock lock data of `checkLiquidity` (lines 113-117). -/
def mockLpLock : LpLock :=
  { locked := true, days := 180, renounceable := false }

/-- The branch of `checkLiquidity` on a lock record (lines 124-136),
parametrised over the lock facts it inspects. -/
def checkLiquidityWith (lock : LpLock) (result : Report) : Report :=
  if lock.locked = true ∧ 180 ≤ lock.days ∧ lock.renounceable = false then
    { result with
      pillars.liquidityCommitment :=
        { verified := true
          points := 150
          details := s!"LP locked for {lock.days} days (non-renounceable)" } }
  else
    { result with
      pillars.liquidityCommitment :=
        { verified := false
          points := 0
          details := "No qualifying LP lock" } }

/-- `checkLiquidity` (lines 110-137): applies the lock branch to the
compiled-in `mockLpLock`; the address is never inspected. -/
def checkLiquidity (result : Report) (_address : String) : Report :=
  checkLiquidityWith mockLpLock result

/-- The hardcoded verified-team address list (lines 142-145). -/
def verifiedTeams : List String :=
  ["0x742d35Cc6634C0532925a3b8D4C9db4c2B6D9126",
   "0x1234567890123456789012345678901234567890"]

/-- `checkTeam` (lines 139-160). -/
def checkTeam (result : Report) (address : String) : Report :=
  if verifiedTeams.contains address then
    { result with
      pillars.teamTransparency :=
        { verified := true
          points := 100
          details := "Team verified via ENS/SIWE" } }
  else
    { result with
      pillars.teamTransparency :=
        { verified := false
          points := 0
          details := "No team verification" } }

/-- The hardcoded pledge flag of `checkFairLaunch` (line 165). -/
def hasPledge : Bool := false

/-- `checkFairLaunch` (lines 162-180). -/
def checkFairLaunch (result : Report) (_address : String) : Report :=
  if hasPledge then
    { result with
      pillars.fairLaunchPledge :=
        { verified := true
          points := 100
          details := "Fair launch pledge signed" } }
  else
    { result with
      pillars.fairLaunchPledge :=
        { verified := false
          points := 0
          details := "No fair launch pledge" } }

/-- `getTier` (lines 182-186). -/
def getTier (score : Nat) : String :=
  if score ≥ 350 then "Verified Builder"
  else if score ≥ 200 then "Emerging Builder"
  else "Unverified"

/-- The score aggregation of line 41:
`Object.values(result.pillars).reduce((sum, p) => sum + p.points, 0)`,
summed in the object-literal insertion order. -/
def pillarSum (ps : Pillars) : Nat :=
  ps.teamTransparency.points + ps.fairLaunchPledge.points +
    ps.liquidityCommitment.points + ps.treasuryTransparency.points

/-- The body of the try block of `verify` (lines 27-53): the four checkers
in source order, then score, tier, and the risk/warning rules. -/
def verifyBody (p : Provider) (result : Report) (walletAddress : String) :
    Except (Report × String) Report :=
  match checkTreasury p result walletAddress with
  | .error e => .error e
  | .ok r1 =>
    let r2 := checkLiquidity r1 walletAddress
    let r3 := checkTeam r2 walletAddress
    let r4 := checkFairLaunch r3 walletAddress
    let scored := { r4 with
      score := pillarSum r4.pillars
      tier := getTier (pillarSum r4.pillars) }
    let r5 := if scored.score < 200 then
        { scored with risks := scored.risks ++ ["High scam risk: Insufficient trust signals"] }
      else scored
    let r6 := if r5.pillars.treasuryTransparency.verified = false then
        { r5 with warnings := r5.warnings ++ ["⚠️ Treasury not verified as Gnosis Safe"] }
      else r5
    let r7 := if r6.pillars.liquidityCommitment.verified = false then
        { r6 with warnings := r6.warnings ++ ["⚠️ No long-term LP lock detected"] }
      else r6
    .ok r7

/-- `verify` (lines 11-61): runs the body, and on a thrown error appends
the catch-block warning "Verification failed: " ++ message to the report
state at the throw point, then returns the report (line 60). -/
def verify (p : Provider) (walletAddress : String) : Report :=
  match verifyBody p (initialResult walletAddress) walletAddress with
  | .ok r => r
  | .error (r, msg) =>
    { r with warnings := r.warnings ++ ["Verification failed: " ++ msg] }

/-! ### Characterisations of the individual checkers -/

/-- Treasury pillar outcome for a qualifying multisig with `n` owners. -/
def safePillar (n : Nat) : PillarResult :=
  { verified := true, points := 150, details := s!"Gnosis Safe with {n} signers" }

/-- Treasury pillar outcome for a multisig with fewer than 3 owners. -/
def lowSignerPillar (n : Nat) : PillarResult :=
  { verified := false, points := 0, details := s!"Gnosis Safe but only {n} signers (<3)" }

/-- Treasury pillar outcome for a contract whose getOwners call throws. -/
def notSafePillar : PillarResult :=
  { verified := false, points := 0, details := "Not a Gnosis Safe" }

/-- Treasury pillar outcome for an externally-owned account. -/
def eoaPillar : PillarResult :=
  { verified := false, points := 0, details := "EOA wallet — not multi-sig" }

/-- Liquidity pillar outcome produced by the mock lock data. -/
def liquidityPillarMock : PillarResult :=
  { verified := true, points := 150, details := "LP locked for 180 days (non-renounceable)" }

/-- Fair-launch pillar outcome with the demo pledge flag set to false. -/
def fairLaunchPillarDemo : PillarResult :=
  { verified := false, points := 0, details := "No fair launch pledge" }

/-- Team pillar outcome as a function of the hardcoded membership test. -/
def teamPillar (a : String) : PillarResult :=
  if verifiedTeams.contains a then
    { verified := true, points := 100, details := "Team verified via ENS/SIWE" }
  else
    { verified := false, points := 0, details := "No team verification" }

/-! ### Concrete providers and lock records used as witnesses -/

/-- A provider whose bytecode fetch always throws with message "timeout". -/
def timeoutProvider : Provider :=
  { getCode := fun _ => .error "timeout", getOwners := fun _ => .ok [] }

/-- A provider reporting every address as holding no code (an EOA). -/
def eoaProvider : Provider :=
  { getCode := fun _ => .ok "0x", getOwners := fun _ => .error "no contract" }

/-- A provider reporting a contract whose getOwners call yields 3 owners. -/
def safe3Provider : Provider :=
  { getCode := fun _ => .ok "0x6080", getOwners := fun _ => .ok ["0xa", "0xb", "0xc"] }

/-- A provider reporting a contract whose getOwners call yields 2 owners. -/
def safe2Provider : Provider :=
  { getCode := fun _ => .ok "0x6080", getOwners := fun _ => .ok ["0xa", "0xb"] }

/-- A provider reporting a contract whose getOwners call reverts. -/
def revertProvider : Provider :=
  { getCode := fun _ => .ok "0x6080", getOwners := fun _ => .error "call revert exception" }

/-- A lock of exactly 180 days, locked and non-renounceable. -/
def lock180 : LpLock := { locked := true, days := 180, renounceable := false }

/-- A lock of 179 days, otherwise identical to `lock180`. -/
def lock179 : LpLock := { locked := true, days := 179, renounceable := false }

/-- Binary scoring of a pillar: full credit exactly with the verified flag,
zero points otherwise. -/
def binaryScored (pr : PillarResult) (maxPts : Nat) : Prop :=
  pr.verified = true ∧ pr.points = maxPts ∨ pr.verified = false ∧ pr.points = 0

lemma checkTreasury_getCode_error (p : Provider) (r : Report) (a msg : String)
    (h : p.getCode a = .error msg) :
    checkTreasury p r a = .error (r, msg) := by
  unfold checkTreasury
  rw [h]

lemma checkTreasury_eoa (p : Provider) (r : Report) (a : String)
    (h : p.getCode a = .ok "0x") :
    checkTreasury p r a = .ok { r with
      pillars.treasuryTransparency := eoaPillar
      risks := r.risks ++ ["Project treasury is single-key wallet — critical risk"] } := by
  unfold checkTreasury
  rw [h]
  simp [eoaPillar]

lemma checkTreasury_contract_safe (p : Provider) (r : Report) (a c : String)
    (owners : List String) (hc : p.getCode a = .ok c) (hne : c ≠ "0x")
    (ho : p.getOwners a = .ok owners) (hn : 3 ≤ owners.length) :
    checkTreasury p r a = .ok { r with
      pillars.treasuryTransparency := safePillar owners.length } := by
  unfold checkTreasury
  rw [hc]
  dsimp only
  rw [if_pos hne, ho]
  dsimp only
  rw [if_pos hn]
  rfl

lemma checkTreasury_contract_low (p : Provider) (r : Report) (a c : String)
    (owners : List String) (hc : p.getCode a = .ok c) (hne : c ≠ "0x")
    (ho : p.getOwners a = .ok owners) (hn : owners.length < 3) :
    checkTreasury p r a = .ok { r with
      pillars.treasuryTransparency := lowSignerPillar owners.length
      warnings := r.warnings ++
        [s!"Low-signer Gnosis Safe ({owners.length}/3)"] } := by
  unfold checkTreasury
  rw [hc]
  dsimp only
  rw [if_pos hne, ho]
  dsimp only
  rw [if_neg (Nat.not_le.mpr hn)]
  rfl

lemma checkTreasury_contract_notsafe (p : Provider) (r : Report) (a c msg : String)
    (hc : p.getCode a = .ok c) (hne : c ≠ "0x")
    (ho : p.getOwners a = .error msg) :
    checkTreasury p r a = .ok { r with
      pillars.treasuryTransparency := notSafePillar
      risks := r.risks ++ ["Non-Gnosis treasury — high withdrawal risk"] } := by
  unfold checkTreasury
  rw [hc]
  dsimp only
  rw [if_pos hne, ho]
  rfl

lemma checkLiquidity_eq (r : Report) (a : String) :
    checkLiquidity r a = { r with
      pillars.liquidityCommitment := liquidityPillarMock } := rfl

lemma checkTeam_eq (r : Report) (a : String) :
    checkTeam r a = { r with pillars.teamTransparency := teamPillar a } := by
  unfold checkTeam teamPillar
  split <;> rfl

lemma checkFairLaunch_eq (r : Report) (a : String) :
    checkFairLaunch r a = { r with
      pillars.fairLaunchPledge := fairLaunchPillarDemo } := rfl

/-- Full evaluation of `verify` when the treasury checker returns normally,
in terms of the treasury pillar outcome `tp` and the risks `rs` and
warnings `ws` that the treasury checker left behind.  The liquidity pillar
always verifies (mock data), so the no-LP-lock warning never fires. -/
lemma verify_of_treasury (p : Provider) (a : String) (tp : PillarResult)
    (rs ws : List String)
    (h : checkTreasury p (initialResult a) a = .ok { initialResult a with
      pillars.treasuryTransparency := tp, risks := rs, warnings := ws }) :
    verify p a =
      { address := a
        score := (teamPillar a).points + 0 + 150 + tp.points
        maxScore := 500
        tier := getTier ((teamPillar a).points + 0 + 150 + tp.points)
        pillars :=
          { teamTransparency := teamPillar a
            fairLaunchPledge := fairLaunchPillarDemo
            liquidityCommitment := liquidityPillarMock
            treasuryTransparency := tp }
        risks := rs ++ (if (teamPillar a).points + 0 + 150 + tp.points < 200 then
            ["High scam risk: Insufficient trust signals"] else [])
        warnings := ws ++ (if tp.verified = false then
            ["⚠️ Treasury not verified as Gnosis Safe"] else []) } := by
  unfold verify verifyBody
  rw [h]
  dsimp only
  rw [checkLiquidity_eq, checkTeam_eq, checkFairLaunch_eq]
  simp only [initialResult, emptyPillar, pillarSum, liquidityPillarMock, fairLaunchPillarDemo]
  split_ifs <;> simp_all

/-- Evaluation of `verify` when the bytecode fetch throws: the error
escapes `checkTreasury`, reaches the top-level catch before any pillar was
written, and only the catch-block warning is added. -/
lemma verify_of_getCode_error (p : Provider) (a msg : String)
    (h : p.getCode a = .error msg) :
    verify p a = { initialResult a with
      warnings := ["Verification failed: " ++ msg] } := by
  unfold verify verifyBody
  rw [checkTreasury_getCode_error p (initialResult a) a msg h]
  rfl

/-- When the bytecode fetch succeeds, the treasury checker returns normally
and its pillar outcome is binary (150 points iff verified); it leaves at
most one risk and at most one warning behind. -/
lemma treasury_cases (p : Provider) (a c : String) (h : p.getCode a = .ok c) :
    ∃ (tp : PillarResult) (rs ws : List String),
      checkTreasury p (initialResult a) a = .ok { initialResult a with
        pillars.treasuryTransparency := tp
        risks := rs
        warnings := ws } ∧
      (tp.verified = true ∧ tp.points = 150 ∨ tp.verified = false ∧ tp.points = 0) ∧
      rs.length ≤ 1 ∧ ws.length ≤ 1 := by
  by_cases hc0 : c = "0x"
  · subst hc0
    refine ⟨eoaPillar, ["Project treasury is single-key wallet — critical risk"], [],
      (checkTreasury_eoa p (initialResult a) a h).trans rfl,
      Or.inr ⟨rfl, rfl⟩, by simp, by simp⟩
  · cases ho : p.getOwners a with
    | ok owners =>
      by_cases hn : 3 ≤ owners.length
      · exact ⟨safePillar owners.length, [], [],
          (checkTreasury_contract_safe p (initialResult a) a c owners h hc0 ho hn).trans rfl,
          Or.inl ⟨rfl, rfl⟩, by simp, by simp⟩
      · exact ⟨lowSignerPillar owners.length, [],
          [s!"Low-signer Gnosis Safe ({owners.length}/3)"],
          (checkTreasury_contract_low p (initialResult a) a c owners h hc0 ho
            (Nat.not_le.mp hn)).trans rfl,
          Or.inr ⟨rfl, rfl⟩, by simp, by simp⟩
    | error msg =>
      exact ⟨notSafePillar, ["Non-Gnosis treasury — high withdrawal risk"], [],
        (checkTreasury_contract_notsafe p (initialResult a) a c msg h hc0 ho).trans rfl,
        Or.inr ⟨rfl, rfl⟩, by simp, by simp⟩

lemma teamPillar_points_le (a : String) : (teamPillar a).points ≤ 100 := by
  unfold teamPillar
  split <;> simp

lemma teamPillar_binary (a : String) :
    (teamPillar a).verified = true ∧ (teamPillar a).points = 100 ∨
    (teamPillar a).verified = false ∧ (teamPillar a).points = 0 := by
  unfold teamPillar
  split
  · exact Or.inl ⟨rfl, rfl⟩
  · exact Or.inr ⟨rfl, rfl⟩

/-! ### Claims -/

/-- C2: for every address on which verify completes normally (the bytecode
fetch answered, so no exception reached the top-level catch), the returned
report's score equals the sum of the points of its four pillar results, and
the score lies in the interval [0, 500]. -/
theorem C2_score_sum_and_bounds (p : Provider) (a c : String)
    (h : p.getCode a = .ok c) :
    (verify p a).score = pillarSum (verify p a).pillars ∧
    0 ≤ (verify p a).score ∧ (verify p a).score ≤ 500 := by
  obtain ⟨tp, rs, ws, hct, hbin, -, -⟩ := treasury_cases p a c h
  rw [verify_of_treasury p a tp rs ws hct]
  refine ⟨rfl, Nat.zero_le _, ?_⟩
  have h1 := teamPillar_points_le a
  rcases hbin with ⟨-, h2⟩ | ⟨-, h2⟩ <;> dsimp <;> omega

/-- C2 witness: the property instantiated at a concrete EOA provider. -/
theorem C2_score_sum_and_bounds_witness :
    (verify eoaProvider "0xc2").score = pillarSum (verify eoaProvider "0xc2").pillars ∧
    0 ≤ (verify eoaProvider "0xc2").score ∧ (verify eoaProvider "0xc2").score ≤ 500 :=
  C2_score_sum_and_bounds eoaProvider "0xc2" "0x" rfl

/-- C3 counterexample: the claim asserts that score = 349 yields the
Unverified tier, but getTier 349 is "Emerging Builder" (349 ≥ 200 and
349 < 350). -/
theorem C3_counterexample_349 :
    getTier 349 = "Emerging Builder" ∧ getTier 349 ≠ "Unverified" := by
  decide

/-- C3 (amended): tier is a pure function of score with inclusive lower
bounds, evaluated top-down with first match winning: score ≥ 350 yields
Verified Builder, otherwise score ≥ 200 yields Emerging Builder, otherwise
Unverified; in particular score = 349 yields Emerging Builder (not
Unverified), score = 199 yields Unverified, score = 350 yields Verified
Builder, and score = 200 yields Emerging Builder. -/
theorem C3_tier_amended (s : Nat) :
    (350 ≤ s → getTier s = "Verified Builder") ∧
    (s < 350 → 200 ≤ s → getTier s = "Emerging Builder") ∧
    (s < 200 → getTier s = "Unverified") ∧
    getTier 349 = "Emerging Builder" ∧ getTier 199 = "Unverified" ∧
    getTier 350 = "Verified Builder" ∧ getTier 200 = "Emerging Builder" := by
  unfold getTier
  refine ⟨fun h => if_pos h, fun h1 h2 => ?_, fun h => ?_,
    by decide, by decide, by decide, by decide⟩
  · rw [if_neg (by omega), if_pos h2]
  · rw [if_neg (by omega), if_neg (by omega)]

/-- C3 witness: the amended tier rules discharged at the boundary scores. -/
theorem C3_tier_amended_witness :
    getTier 350 = "Verified Builder" ∧ getTier 200 = "Emerging Builder" ∧
    getTier 199 = "Unverified" :=
  ⟨(C3_tier_amended 350).1 (by decide),
   (C3_tier_amended 200).2.1 (by decide) (by decide),
   (C3_tier_amended 199).2.2.1 (by decide)⟩

/-- C4: in every returned report (normal or degraded) each pillar is
binary-scored: points is the pillar maximum (150/150/100/100) exactly when
verified is true, and 0 exactly when verified is false. -/
theorem C4_binary_pillars (p : Provider) (a : String) :
    binaryScored (verify p a).pillars.treasuryTransparency 150 ∧
    binaryScored (verify p a).pillars.liquidityCommitment 150 ∧
    binaryScored (verify p a).pillars.teamTransparency 100 ∧
    binaryScored (verify p a).pillars.fairLaunchPledge 100 := by
  cases hg : p.getCode a with
  | error msg =>
    rw [verify_of_getCode_error p a msg hg]
    exact ⟨Or.inr ⟨rfl, rfl⟩, Or.inr ⟨rfl, rfl⟩, Or.inr ⟨rfl, rfl⟩, Or.inr ⟨rfl, rfl⟩⟩
  | ok c =>
    obtain ⟨tp, rs, ws, hct, hbin, -, -⟩ := treasury_cases p a c hg
    rw [verify_of_treasury p a tp rs ws hct]
    exact ⟨hbin, Or.inl ⟨rfl, rfl⟩, teamPillar_binary a, Or.inr ⟨rfl, rfl⟩⟩

/-- C4 witness: binary scoring in the report of a concrete run. -/
theorem C4_binary_pillars_witness :
    binaryScored (verify safe3Provider "0xc4").pillars.treasuryTransparency 150 ∧
    binaryScored (verify safe3Provider "0xc4").pillars.liquidityCommitment 150 ∧
    binaryScored (verify safe3Provider "0xc4").pillars.teamTransparency 100 ∧
    binaryScored (verify safe3Provider "0xc4").pillars.fairLaunchPledge 100 :=
  C4_binary_pillars safe3Provider "0xc4"

/-- C5: the liquidity check marks the pillar verified with 150 points iff
the lock facts satisfy locked ∧ days ≥ 180 ∧ ¬renounceable; otherwise the
pillar is unverified with 0 points and details "No qualifying LP lock". -/
theorem C5_liquidity_rule (lock : LpLock) (r : Report) :
    ((checkLiquidityWith lock r).pillars.liquidityCommitment.verified = true ∧
       (checkLiquidityWith lock r).pillars.liquidityCommitment.points = 150 ↔
       lock.locked = true ∧ 180 ≤ lock.days ∧ lock.renounceable = false) ∧
    (¬(lock.locked = true ∧ 180 ≤ lock.days ∧ lock.renounceable = false) →
      (checkLiquidityWith lock r).pillars.liquidityCommitment.verified = false ∧
      (checkLiquidityWith lock r).pillars.liquidityCommitment.points = 0 ∧
      (checkLiquidityWith lock r).pillars.liquidityCommitment.details =
        "No qualifying LP lock") := by
  unfold checkLiquidityWith
  by_cases h : lock.locked = true ∧ 180 ≤ lock.days ∧ lock.renounceable = false
  · rw [if_pos h]
    simp [h]
  · rw [if_neg h]
    simp [h]

/-- C5 witness: a 180-day non-renounceable active lock verifies with 150
points; the identical lock at 179 days is unverified with 0 points. -/
theorem C5_liquidity_rule_witness :
    (checkLiquidityWith lock180 (initialResult "0xc5")).pillars.liquidityCommitment.verified
        = true ∧
    (checkLiquidityWith lock180 (initialResult "0xc5")).pillars.liquidityCommitment.points
        = 150 ∧
    (checkLiquidityWith lock179 (initialResult "0xc5")).pillars.liquidityCommitment.verified
        = false ∧
    (checkLiquidityWith lock179 (initialResult "0xc5")).pillars.liquidityCommitment.points
        = 0 :=
  ⟨((C5_liquidity_rule lock180 (initialResult "0xc5")).1.mpr (by decide)).1,
   ((C5_liquidity_rule lock180 (initialResult "0xc5")).1.mpr (by decide)).2,
   ((C5_liquidity_rule lock179 (initialResult "0xc5")).2 (by decide)).1,
   ((C5_liquidity_rule lock179 (initialResult "0xc5")).2 (by decide)).2.1⟩

/-- C6: for an address holding non-empty bytecode the treasury outcome is
determined by the getOwners call: success with ≥ 3 owners verifies the
pillar with 150 points and the owner count in the details; success with
fewer than 3 owners leaves it unverified with 0 points and appends the
low-signer warning; a failed call leaves it unverified with 0 points and
appends the non-multisig treasury risk. -/
theorem C6_treasury_contract (p : Provider) (r : Report) (a c : String)
    (hc : p.getCode a = .ok c) (hne : c ≠ "0x") :
    (∀ owners, p.getOwners a = .ok owners → 3 ≤ owners.length →
      checkTreasury p r a = .ok { r with
        pillars.treasuryTransparency := safePillar owners.length } ∧
      (safePillar owners.length).verified = true ∧
      (safePillar owners.length).points = 150 ∧
      (safePillar owners.length).details =
        "Gnosis Safe with " ++ toString owners.length ++ " signers") ∧
    (∀ owners, p.getOwners a = .ok owners → owners.length < 3 →
      checkTreasury p r a = .ok { r with
        pillars.treasuryTransparency := lowSignerPillar owners.length
        warnings := r.warnings ++
          ["Low-signer Gnosis Safe (" ++ toString owners.length ++ "/3)"] } ∧
      (lowSignerPillar owners.length).verified = false ∧
      (lowSignerPillar owners.length).points = 0) ∧
    (∀ msg, p.getOwners a = .error msg →
      checkTreasury p r a = .ok { r with
        pillars.treasuryTransparency := notSafePillar
        risks := r.risks ++ ["Non-Gnosis treasury — high withdrawal risk"] } ∧
      notSafePillar.verified = false ∧ notSafePillar.points = 0) := by
  refine ⟨?_, ?_, ?_⟩
  · intro owners ho hn
    exact ⟨checkTreasury_contract_safe p r a c owners hc hne ho hn, rfl, rfl, rfl⟩
  · intro owners ho hn
    exact ⟨(checkTreasury_contract_low p r a c owners hc hne ho hn).trans rfl, rfl, rfl⟩
  · intro msg ho
    exact ⟨checkTreasury_contract_notsafe p r a c msg hc hne ho, rfl, rfl⟩

/-- C6 witness: the three treasury outcomes on concrete providers with 3
owners, 2 owners, and a reverting getOwners call. -/
theorem C6_treasury_contract_witness :
    checkTreasury safe3Provider (initialResult "0xc6") "0xc6" =
      .ok { initialResult "0xc6" with
        pillars.treasuryTransparency := safePillar 3 } ∧
    checkTreasury safe2Provider (initialResult "0xc6") "0xc6" =
      .ok { initialResult "0xc6" with
        pillars.treasuryTransparency := lowSignerPillar 2
        warnings := (initialResult "0xc6").warnings ++ ["Low-signer Gnosis Safe (2/3)"] } ∧
    checkTreasury revertProvider (initialResult "0xc6") "0xc6" =
      .ok { initialResult "0xc6" with
        pillars.treasuryTransparency := notSafePillar
        risks := (initialResult "0xc6").risks ++
          ["Non-Gnosis treasury — high withdrawal risk"] } :=
  ⟨((C6_treasury_contract safe3Provider (initialResult "0xc6") "0xc6" "0x6080" rfl
      (by decide)).1 ["0xa", "0xb", "0xc"] rfl (by decide)).1,
   ((C6_treasury_contract safe2Provider (initialResult "0xc6") "0xc6" "0x6080" rfl
      (by decide)).2.1 ["0xa", "0xb"] rfl (by decide)).1,
   ((C6_treasury_contract revertProvider (initialResult "0xc6") "0xc6" "0x6080" rfl
      (by decide)).2.2 "call revert exception" rfl).1⟩

/-- C7: for every address whose bytecode is empty (the provider answers
"0x"), the returned report's treasury pillar is unverified with 0 points
and details "EOA wallet — not multi-sig", and the single-key-wallet risk is
in the risks list, whatever the other pillars did. -/
theorem C7_eoa_treasury (p : Provider) (a : String) (h : p.getCode a = .ok "0x") :
    (verify p a).pillars.treasuryTransparency.verified = false ∧
    (verify p a).pillars.treasuryTransparency.points = 0 ∧
    (verify p a).pillars.treasuryTransparency.details = "EOA wallet — not multi-sig" ∧
    "Project treasury is single-key wallet — critical risk" ∈ (verify p a).risks := by
  have hct : checkTreasury p (initialResult a) a = .ok { initialResult a with
      pillars.treasuryTransparency := eoaPillar
      risks := ["Project treasury is single-key wallet — critical risk"]
      warnings := [] } := (checkTreasury_eoa p (initialResult a) a h).trans rfl
  rw [verify_of_treasury p a eoaPillar _ _ hct]
  refine ⟨rfl, rfl, rfl, ?_⟩
  simp

/-- C7 witness: the EOA outcome on a concrete provider. -/
theorem C7_eoa_treasury_witness :
    (verify eoaProvider "0xc7").pillars.treasuryTransparency.verified = false ∧
    (verify eoaProvider "0xc7").pillars.treasuryTransparency.points = 0 ∧
    (verify eoaProvider "0xc7").pillars.treasuryTransparency.details =
      "EOA wallet — not multi-sig" ∧
    "Project treasury is single-key wallet — critical risk" ∈
      (verify eoaProvider "0xc7").risks :=
  C7_eoa_treasury eoaProvider "0xc7" rfl

/-- C10: the liquidity checker verifies its pillar with 150 points for
every address and every prior report state, driven solely by the
compiled-in mock lock data (locked, 180 days, non-renounceable); hence
every run in which all four checkers complete scores at least 150. -/
theorem C10_mock_liquidity (r : Report) (a : String) :
    (checkLiquidity r a).pillars.liquidityCommitment.verified = true ∧
    (checkLiquidity r a).pillars.liquidityCommitment.points = 150 ∧
    mockLpLock.locked = true ∧ mockLpLock.days = 180 ∧
    mockLpLock.renounceable = false ∧
    ∀ (p : Provider) (c : String), p.getCode a = .ok c →
      150 ≤ (verify p a).score := by
  rw [checkLiquidity_eq]
  refine ⟨rfl, rfl, rfl, rfl, rfl, ?_⟩
  intro p c h
  obtain ⟨tp, rs, ws, hct, -, -, -⟩ := treasury_cases p a c h
  rw [verify_of_treasury p a tp rs ws hct]
  dsimp
  omega

/-- C10 witness: a concrete EOA run still scores at least 150. -/
theorem C10_mock_liquidity_witness :
    (checkLiquidity (initialResult "0xca") "0xca").pillars.liquidityCommitment.verified
      = true ∧
    150 ≤ (verify eoaProvider "0xca").score :=
  ⟨(C10_mock_liquidity (initialResult "0xca") "0xca").1,
   (C10_mock_liquidity (initialResult "0xca") "0xca").2.2.2.2.2 eoaProvider "0x" rfl⟩

/-- C1 counterexample: with a provider whose bytecode fetch throws
"timeout", the liquidity pillar of the returned report is unverified with
0 points and empty details — the liquidity check never ran — although the
liquidity checker, had it run, always verifies with 150 points.  The
failure therefore propagates past the treasury checker. -/
theorem C1_counterexample_timeout :
    (verify timeoutProvider "0xc1").pillars.liquidityCommitment.points = 0 ∧
    (verify timeoutProvider "0xc1").pillars.liquidityCommitment.details = "" ∧
    (verify timeoutProvider "0xc1").warnings = ["Verification failed: timeout"] ∧
    (checkLiquidity (initialResult "0xc1") "0xc1").pillars.liquidityCommitment.points
      = 150 := by
  decide

/-- C1 (amended): a chain-fact failure during the treasury bytecode fetch
escapes the treasury checker and reaches the single top-level catch of
verify: the Liquidity, Team and FairLaunch checks are skipped, all four
pillars keep their initial unverified zero-point values, the score stays 0,
no risks are recorded, and the only warning notes the failure ("Verification
failed: " followed by the reason). -/
theorem C1_amended_failure_propagates (p : Provider) (a msg : String)
    (h : p.getCode a = .error msg) :
    verify p a = { initialResult a with
      warnings := ["Verification failed: " ++ msg] } ∧
    (verify p a).pillars.liquidityCommitment = emptyPillar ∧
    (verify p a).pillars.teamTransparency = emptyPillar ∧
    (verify p a).pillars.fairLaunchPledge = emptyPillar ∧
    (verify p a).pillars.treasuryTransparency = emptyPillar ∧
    (verify p a).score = 0 ∧ (verify p a).risks = [] := by
  have hv := verify_of_getCode_error p a msg h
  rw [hv]
  exact ⟨rfl, rfl, rfl, rfl, rfl, rfl, rfl⟩

/-- C1 witness: the amended behaviour at the concrete timeout provider. -/
theorem C1_amended_failure_propagates_witness :
    verify timeoutProvider "0xw1" = { initialResult "0xw1" with
      warnings := ["Verification failed: " ++ "timeout"] } ∧
    (verify timeoutProvider "0xw1").pillars.liquidityCommitment = emptyPillar ∧
    (verify timeoutProvider "0xw1").pillars.teamTransparency = emptyPillar ∧
    (verify timeoutProvider "0xw1").pillars.fairLaunchPledge = emptyPillar ∧
    (verify timeoutProvider "0xw1").pillars.treasuryTransparency = emptyPillar ∧
    (verify timeoutProvider "0xw1").score = 0 ∧
    (verify timeoutProvider "0xw1").risks = [] :=
  C1_amended_failure_propagates timeoutProvider "0xw1" "timeout" rfl

/-- C8 counterexample: when the bytecode fetch throws, the returned report
has score 0 < 200 yet the aggregate-score risk is absent, so "the
aggregate-score risk is appended exactly when score < 200" fails for that
returned report. -/
theorem C8_counterexample_exception_path :
    (verify timeoutProvider "0xc8").score < 200 ∧
    "High scam risk: Insufficient trust signals" ∉ (verify timeoutProvider "0xc8").risks := by
  decide

/-- C8 (amended): in every report returned by a run whose bytecode fetch
succeeded, the risks list is exactly the treasury-emitted risks (at most
one entry; the liquidity checker emits none) followed by the
aggregate-score risk appended exactly when score < 200; the warnings list
is exactly the treasury-emitted warnings (at most one) followed by the
treasury-unverified warning (exactly when the treasury pillar is
unverified) and then the liquidity-unverified warning (exactly when the
liquidity pillar is unverified); each matching rule appends exactly one
entry and duplicates are never suppressed.  On the exception path this
fails (see the counterexample). -/
theorem C8_amended_message_order (p : Provider) (a c : String)
    (h : p.getCode a = .ok c) :
    ∃ tr tw,
      (∃ out, checkTreasury p (initialResult a) a = .ok out ∧
        out.risks = tr ∧ out.warnings = tw) ∧
      tr.length ≤ 1 ∧ tw.length ≤ 1 ∧
      (verify p a).risks = tr ++
        (if (verify p a).score < 200 then
          ["High scam risk: Insufficient trust signals"] else []) ∧
      (verify p a).warnings = tw ++
        (if (verify p a).pillars.treasuryTransparency.verified = false then
          ["⚠️ Treasury not verified as Gnosis Safe"] else []) ++
        (if (verify p a).pillars.liquidityCommitment.verified = false then
          ["⚠️ No long-term LP lock detected"] else []) := by
  obtain ⟨tp, rs, ws, hct, hbin, hrs, hws⟩ := treasury_cases p a c h
  refine ⟨rs, ws, ⟨_, hct, rfl, rfl⟩, hrs, hws, ?_, ?_⟩
  · rw [verify_of_treasury p a tp rs ws hct]
  · rw [verify_of_treasury p a tp rs ws hct]
    simp [liquidityPillarMock]

/-- C8 witness: the amended message ordering at a concrete EOA run. -/
theorem C8_amended_message_order_witness :
    ∃ tr tw,
      (∃ out, checkTreasury eoaProvider (initialResult "0xw8") "0xw8" = .ok out ∧
        out.risks = tr ∧ out.warnings = tw) ∧
      tr.length ≤ 1 ∧ tw.length ≤ 1 ∧
      (verify eoaProvider "0xw8").risks = tr ++
        (if (verify eoaProvider "0xw8").score < 200 then
          ["High scam risk: Insufficient trust signals"] else []) ∧
      (verify eoaProvider "0xw8").warnings = tw ++
        (if (verify eoaProvider "0xw8").pillars.treasuryTransparency.verified = false then
          ["⚠️ Treasury not verified as Gnosis Safe"] else []) ++
        (if (verify eoaProvider "0xw8").pillars.liquidityCommitment.verified = false then
          ["⚠️ No long-term LP lock detected"] else []) :=
  C8_amended_message_order eoaProvider "0xw8" "0x" rfl

/-- C9 counterexample: on the syntactically invalid address
"not-an-address" no InvalidAddress error is raised and no short-circuit
happens: the pillar checks run (the treasury check classifies it from the
provider's answer, the liquidity check awards its 150 points) and a full
report for that address is returned. -/
theorem C9_counterexample_no_shortcircuit :
    (verify eoaProvider "not-an-address").address = "not-an-address" ∧
    (verify eoaProvider "not-an-address").pillars.treasuryTransparency.details =
      "EOA wallet — not multi-sig" ∧
    (verify eoaProvider "not-an-address").pillars.liquidityCommitment.points = 150 ∧
    (verify eoaProvider "not-an-address").score = 150 := by
  decide

/-- C9 (amended): verify performs no syntactic validation of the wallet
address: for every input string — well-formed or not — it returns a report
carrying that address (there is no InvalidAddress error in the code), and
whenever the provider answers the bytecode fetch the downstream pillar
checks run on that input. -/
theorem C9_amended_no_validation (p : Provider) (a : String) :
    (verify p a).address = a ∧
    ∀ c, p.getCode a = .ok c →
      (verify p a).pillars.liquidityCommitment.points = 150 ∧
      (verify p a).pillars.fairLaunchPledge.details = "No fair launch pledge" := by
  constructor
  · cases hg : p.getCode a with
    | error msg => rw [verify_of_getCode_error p a msg hg]; rfl
    | ok c =>
      obtain ⟨tp, rs, ws, hct, -, -, -⟩ := treasury_cases p a c hg
      rw [verify_of_treasury p a tp rs ws hct]
  · intro c hg
    obtain ⟨tp, rs, ws, hct, -, -, -⟩ := treasury_cases p a c hg
    rw [verify_of_treasury p a tp rs ws hct]
    exact ⟨rfl, rfl⟩

/-- C9 witness: the amended behaviour on a malformed address. -/
theorem C9_amended_no_validation_witness :
    (verify eoaProvider "zzz").address = "zzz" ∧
    (verify eoaProvider "zzz").pillars.liquidityCommitment.points = 150 :=
  ⟨(C9_amended_no_validation eoaProvider "zzz").1,
   ((C9_amended_no_validation eoaProvider "zzz").2 "0x" rfl).1⟩

end Ethoscan
